import Mathlib

/-!
Shallow embedding of the CareSync SMS reminder backend.

The repository stores medication/appointment reminders in a document store
and dispatches SMS messages from a once-per-minute cron loop.  Strings from
the JavaScript source are modelled as `List Char`; timestamps (JS `Date`
values) as `Int` milliseconds since the epoch; the external SMS gateway as
a function parameter returning either a resolved provider response or a
thrown (rejected-promise) outcome.

Sources embedded here:
- `src/sms-server/index.js` — the main server: permissive phone formatting
  (lines 79-86 and 204-211), the strict regex validation of `/send-sms`
  (lines 88-91), and the cron dispatch loop (lines 192-244).
- `src/unnamed/part_001` — a revision with a `formatPhone` helper that can
  reject (lines 189-195), batch creation `POST /api/reminders`
  (lines 139-160), and its cron loop (lines 163-186).
- `src/unnamed/part_000` — a library-based cron job that checks the
  `result.success` flag before marking a reminder sent.
-/

namespace CareSync

/-- Characters removed by `.trim().replace(/[\s\-\(\)]/g, '')`:
whitespace, hyphens and parentheses. -/
def strippedChar (c : Char) : Bool :=
  c = ' ' || c = '\t' || c = '\n' || c = '\r' || c = '-' || c = '(' || c = ')'

/-- `phone.toString().trim().replace(/[\s\-\(\)]/g, '')`: remove all
whitespace, hyphens and parentheses (the global replace subsumes the trim). -/
def stripPhone (s : List Char) : List Char :=
  s.filter (fun c => !strippedChar c)

/-- JavaScript `s.startsWith(p)` on our character lists. -/
def startsWithL : List Char → List Char → Bool
  | _, [] => true
  | [], _ :: _ => false
  | c :: cs, p :: ps => decide (c = p) && startsWithL cs ps

def plus254 : List Char := ['+', '2', '5', '4']

def code254 : List Char := ['2', '5', '4']

/-- Permissive phone normalization of `src/sms-server/index.js`
(lines 79-86 of the `/send-sms` handler; lines 204-211 of the cron loop are
the identical chain): strip, then replace a leading `0` by `+254`, prepend
`+` to a leading `254`, prepend `+254` to anything not already starting
with `+254`. -/
def formatPhonePermissive (toNumber : List Char) : List Char :=
  let p := stripPhone toNumber
  if startsWithL p ['0'] then plus254 ++ p.tail
  else if startsWithL p code254 then '+' :: p
  else if !startsWithL p plus254 then plus254 ++ p
  else p

/-- `formatPhone` of `src/unnamed/part_001` lines 189-195: same
substitutions, but any input not starting with `0`, `254` or `+254` after
stripping is rejected (`return null`). -/
def formatPhone (phone : List Char) : Option (List Char) :=
  let p := stripPhone phone
  if startsWithL p ['0'] then some (plus254 ++ p.tail)
  else if startsWithL p code254 then some ('+' :: p)
  else if startsWithL p plus254 then some p
  else none

def isDigitCh (c : Char) : Bool := decide ('0' ≤ c) && decide (c ≤ '9')

/-- The strict validation regex `/^\+254[17]\d{8}$/` of
`src/sms-server/index.js` line 88: `+254`, one operator-prefix digit
(`1` or `7`), then exactly 8 digits. -/
def phoneRegexTest : List Char → Bool
  | '+' :: '2' :: '5' :: '4' :: d :: rest =>
      (decide (d = '1') || decide (d = '7')) &&
        decide (rest.length = 8) && rest.all isDigitCh
  | _ => false

/-- `type: { type: String, enum: ['medication', 'appointment'], required: true }`. -/
inductive RType where
  | medication
  | appointment
deriving DecidableEq, Repr

/-- The `Reminder` mongoose document of `src/sms-server/index.js`
lines 37-48.  Optional string fields absent on a document are modelled as
the empty list; `appointmentDate` and `sendAt` are epoch milliseconds. -/
structure Reminder where
  name : List Char
  phone : List Char
  rtype : RType
  medication : List Char
  doctorName : List Char
  clinicName : List Char
  appointmentDate : Int
  appointmentTime : List Char
  sendAt : Int
  sent : Bool
deriving DecidableEq, Repr

/-- Outcome of `sms.send(...)`: the promise either rejects (`thrown`) or
resolves carrying `result.SMSMessageData.Recipients[0].status`. -/
inductive GatewayResult where
  | thrown
  | resolved (status : List Char)
deriving DecidableEq, Repr

/-- An invocation of the gateway: the `to` and `message` fields passed to
`sms.send` (`to` is a reserved word in Lean, hence `toNumber`). -/
structure SendCall where
  toNumber : List Char
  message : List Char
deriving DecidableEq, Repr

def apos : Char := Char.ofNat 39

/-- Message composition of the `src/sms-server/index.js` cron loop
(lines 217-228).  `fmtDate` stands for
`toLocaleDateString('en-US', {weekday, year, month, day})`, an
environment-dependent date renderer. -/
def composeMsgIndex (fmtDate : Int → List Char) (r : Reminder) : List Char :=
  match r.rtype with
  | .medication =>
      "Hi ".data ++ r.name ++ ", this is your reminder to take: ".data ++
        r.medication ++ ".".data
  | .appointment =>
      "Hi ".data ++ r.name ++ ", reminder: You have a doctor".data ++
        [apos] ++ "s appointment on ".data ++ fmtDate r.appointmentDate ++
        " at ".data ++ r.appointmentTime ++ " at ".data ++ r.clinicName ++
        ". Reply CONFIRM to acknowledge.".data

/-- Message composition of the `src/unnamed/part_001` cron loop
(lines 173-175); its appointment branch uses plain `toLocaleDateString()`
and has no reply-keyword sentence. -/
def composeMsgCron (fmtDate : Int → List Char) (r : Reminder) : List Char :=
  match r.rtype with
  | .medication =>
      "Hi ".data ++ r.name ++ ", this is your reminder to take: ".data ++
        r.medication ++ ".".data
  | .appointment =>
      "Hi ".data ++ r.name ++ ", reminder: You have a doctor".data ++
        [apos] ++ "s appointment on ".data ++ fmtDate r.appointmentDate ++
        " at ".data ++ r.appointmentTime ++ " at ".data ++ r.clinicName ++
        ".".data

/-- The due-query `Reminder.find({ sent: false, sendAt: { $lte: now } })`. -/
def isDue (now : Int) (r : Reminder) : Bool :=
  !r.sent && decide (r.sendAt ≤ now)

def dueQuery (now : Int) (store : List Reminder) : List Reminder :=
  store.filter (isDue now)

/-- One iteration of the `src/sms-server/index.js` cron loop body
(lines 196-243) on a single selected reminder: skip when `!r.phone`
(empty string); otherwise format (the permissive chain never throws),
compose, call the gateway, and set `sent = true` exactly when the call
resolves (the result's status field is not inspected); a thrown call only
logs.  Returns the gateway calls made and the record's new state. -/
def processOneIndex (gw : List Char → List Char → GatewayResult)
    (fmtDate : Int → List Char) (r : Reminder) : List SendCall × Reminder :=
  if r.phone = [] then ([], r)
  else
    let fp := formatPhonePermissive r.phone
    let msg := composeMsgIndex fmtDate r
    match gw fp msg with
    | .resolved _ => ([⟨fp, msg⟩], { r with sent := true })
    | .thrown => ([⟨fp, msg⟩], r)

/-- The sequential `for (const r of reminders)` loop of
`src/sms-server/index.js`, threading the list of gateway calls. -/
def loopIndex (gw : List Char → List Char → GatewayResult)
    (fmtDate : Int → List Char) : List Reminder → List SendCall × List Reminder
  | [] => ([], [])
  | r :: rest =>
      let pr := processOneIndex gw fmtDate r
      let pl := loopIndex gw fmtDate rest
      (pr.1 ++ pl.1, pr.2 :: pl.2)

/-- One tick of the `src/sms-server/index.js` cron job (lines 192-244):
query the due reminders, run the loop over them, and persist each
processed record (`r.save()`) back into the store. -/
def tickIndex (gw : List Char → List Char → GatewayResult)
    (fmtDate : Int → List Char) (now : Int) (store : List Reminder) :
    List SendCall × List Reminder :=
  ((loopIndex gw fmtDate (dueQuery now store)).1,
   store.map (fun r =>
     if isDue now r then (processOneIndex gw fmtDate r).2 else r))

/-- One iteration of the `src/unnamed/part_001` cron loop body
(lines 167-185): skip when `!r.phone`, skip when `formatPhone` returns
null, otherwise call the gateway and mark sent when the call resolves. -/
def processOneCron (gw : List Char → List Char → GatewayResult)
    (fmtDate : Int → List Char) (r : Reminder) : List SendCall × Reminder :=
  if r.phone = [] then ([], r)
  else
    match formatPhone r.phone with
    | none => ([], r)
    | some fp =>
        let msg := composeMsgCron fmtDate r
        match gw fp msg with
        | .resolved _ => ([⟨fp, msg⟩], { r with sent := true })
        | .thrown => ([⟨fp, msg⟩], r)

/-- The sequential loop of the `src/unnamed/part_001` cron job. -/
def loopCron (gw : List Char → List Char → GatewayResult)
    (fmtDate : Int → List Char) : List Reminder → List SendCall × List Reminder
  | [] => ([], [])
  | r :: rest =>
      let pr := processOneCron gw fmtDate r
      let pl := loopCron gw fmtDate rest
      (pr.1 ++ pl.1, pr.2 :: pl.2)

/-- One tick of the `src/unnamed/part_001` cron job (lines 163-186). -/
def tickCron (gw : List Char → List Char → GatewayResult)
    (fmtDate : Int → List Char) (now : Int) (store : List Reminder) :
    List SendCall × List Reminder :=
  ((loopCron gw fmtDate (dueQuery now store)).1,
   store.map (fun r =>
     if isDue now r then (processOneCron gw fmtDate r).2 else r))

/-- Message of the `src/unnamed/part_000` job (line 16). -/
def msgLib (r : Reminder) : List Char :=
  "Hi ".data ++ r.name ++ ", it".data ++ [apos] ++
    "s time to take your medication: ".data ++ r.medication

/-- One iteration of the `src/unnamed/part_000` cron loop (lines 15-27):
`sendSMS` returns a `{success, ...}` object and the record is marked sent
only when `result.success` is true. -/
def processOneLib (gw : List Char → List Char → Bool) (r : Reminder) :
    Reminder :=
  if gw r.phone (msgLib r) then { r with sent := true } else r

/-- HTTP responses of the `/send-sms` handler of `src/sms-server/index.js`
(lines 72-111). -/
inductive HttpResp where
  | ok (body : List Char)
  | badRequest (err : List Char)
  | serverError (err : List Char)
deriving DecidableEq, Repr

/-- The `/send-sms` handler of `src/sms-server/index.js` (lines 72-111):
require `to` and `message` truthy, format permissively, reject on the
strict regex, prefix `Hi <name>, ` when `name` is truthy, send, and answer
by the resolved status (only the literal `Success` is a success).  Returns
the response and the gateway calls made. -/
def sendSmsHandler (gw : List Char → List Char → GatewayResult)
    (toNumber message name : List Char) : HttpResp × List SendCall :=
  if toNumber = [] ∨ message = [] then
    (.badRequest "Phone number and message are required".data, [])
  else
    let fp := formatPhonePermissive toNumber
    if !phoneRegexTest fp then
      (.badRequest "Invalid Kenya phone number format".data, [])
    else
      let finalMessage :=
        if name = [] then message else "Hi ".data ++ name ++ ", ".data ++ message
      match gw fp finalMessage with
      | .resolved st =>
          if st = "Success".data then (.ok "SMS sent".data, [⟨fp, finalMessage⟩])
          else (.badRequest "Failed to send SMS".data, [⟨fp, finalMessage⟩])
      | .thrown => (.serverError "SMS sending failed".data, [⟨fp, finalMessage⟩])

def isSpaceCh (c : Char) : Bool :=
  c = ' ' || c = '\t' || c = '\n' || c = '\r'

/-- Value of the longest leading digit run, or `none` when there is no
leading digit (JavaScript `NaN`). -/
def leadingNat (s : List Char) : Option Nat :=
  let ds := s.takeWhile isDigitCh
  if ds = [] then none
  else some (ds.foldl (fun a c => a * 10 + (c.toNat - 48)) 0)

/-- JavaScript `parseInt(s)` restricted to decimal input: skip leading
whitespace, an optional sign, then the longest digit run; `none` models
`NaN` (absent or unparsable input). -/
def parseIntJS (s : List Char) : Option Int :=
  match s.dropWhile isSpaceCh with
  | '-' :: rest => (leadingNat rest).map (fun n => -(n : Int))
  | '+' :: rest => (leadingNat rest).map (fun n => (n : Int))
  | t => (leadingNat t).map (fun n => (n : Int))

/-- A medication reminder document as built by the creation handlers:
appointment-only fields are absent (empty / zero) and `sent` defaults to
false. -/
def mkMedicationReminder (name phone medication : List Char) (sendAt : Int) :
    Reminder :=
  { name := name, phone := phone, rtype := .medication,
    medication := medication, doctorName := [], clinicName := [],
    appointmentDate := 0, appointmentTime := [], sendAt := sendAt,
    sent := false }

/-- `POST /api/reminders` of `src/unnamed/part_001` (lines 139-160):
`days = parseInt(repeatDays) || 1` (so `NaN` and `0` become 1), then
`Array.from({length: days}, (_, i) => {...sendAt + i*24*60*60*1000,
sent: false})`; a negative length yields an empty array.  `none` for
`repeatDays` models an absent field; a missing phone is rejected. -/
def createReminders (name phone medication : List Char) (sendAt : Int)
    (repeatDays : Option (List Char)) : Option (List Reminder) :=
  if phone = [] then none
  else
    let days : Int :=
      match repeatDays.bind parseIntJS with
      | none => 1
      | some k => if k = 0 then 1 else k
    some ((List.range days.toNat).map (fun i : Nat =>
      mkMedicationReminder name phone medication
        (sendAt + (i : Int) * (24 * 60 * 60 * 1000))))

/-- An appointment reminder document as built by
`POST /api/reminders/appointment`: `sent` defaults to false. -/
def mkAppointmentReminder (name phone doctorName clinicName : List Char)
    (appointmentDate : Int) (appointmentTime : List Char) (sendAt : Int) :
    Reminder :=
  { name := name, phone := phone, rtype := .appointment, medication := [],
    doctorName := doctorName, clinicName := clinicName,
    appointmentDate := appointmentDate, appointmentTime := appointmentTime,
    sendAt := sendAt, sent := false }

/-! ### Helper lemmas about the string operations -/

theorem startsWithL_nil (l : List Char) : startsWithL l [] = true := by
  cases l <;> rfl

theorem startsWithL_append (pre t : List Char) :
    startsWithL (pre ++ t) pre = true := by
  induction pre with
  | nil => exact startsWithL_nil t
  | cons c cs ih => simp [startsWithL, ih]

theorem startsWithL_shape {l pre : List Char} (h : startsWithL l pre = true) :
    ∃ t, l = pre ++ t := by
  induction pre generalizing l with
  | nil => exact ⟨l, rfl⟩
  | cons c cs ih =>
      cases l with
      | nil => simp [startsWithL] at h
      | cons a as =>
          simp only [startsWithL, Bool.and_eq_true, decide_eq_true_eq] at h
          obtain ⟨rfl, h2⟩ := h
          obtain ⟨t, rfl⟩ := ih h2
          exact ⟨t, rfl⟩

theorem stripPhone_append (a b : List Char) :
    stripPhone (a ++ b) = stripPhone a ++ stripPhone b := by
  simp [stripPhone, List.filter_append]

theorem stripPhone_idem (s : List Char) :
    stripPhone (stripPhone s) = stripPhone s := by
  simp [stripPhone, List.filter_filter]

theorem stripPhone_cons_keep {c : Char} (hc : strippedChar c = false)
    (l : List Char) : stripPhone (c :: l) = c :: stripPhone l := by
  simp [stripPhone, List.filter_cons, hc]

theorem stripPhone_plus254 : stripPhone plus254 = plus254 := by decide

/-- The output of the permissive chain contains no strippable characters:
starting from a stripped remainder, every branch only prepends `+254`,
`+` or nothing. -/
theorem stripPhone_formatPhonePermissive (s : List Char) :
    stripPhone (formatPhonePermissive s) = formatPhonePermissive s := by
  unfold formatPhonePermissive
  dsimp only
  set p := stripPhone s with hp
  have hpidem : stripPhone p = p := stripPhone_idem s
  split
  · next h0 =>
      obtain ⟨t, ht⟩ := startsWithL_shape h0
      simp only [List.cons_append, List.nil_append] at ht
      have h0t : stripPhone ('0' :: t) = '0' :: stripPhone t :=
        stripPhone_cons_keep (by decide) t
      have hstript : stripPhone t = t := by
        rw [ht, h0t] at hpidem
        injection hpidem
      rw [ht, List.tail_cons, stripPhone_append, stripPhone_plus254, hstript]
  · split
    · next h254 =>
        rw [stripPhone_cons_keep (by decide), hpidem]
    · split
      · next hnp =>
          rw [stripPhone_append, stripPhone_plus254, hpidem]
      · exact hpidem

/-- Every branch of the permissive chain produces a string starting with
`+254`. -/
theorem formatPhonePermissive_startsWith (s : List Char) :
    startsWithL (formatPhonePermissive s) plus254 = true := by
  unfold formatPhonePermissive
  dsimp only
  set p := stripPhone s with hp
  split
  · exact startsWithL_append plus254 _
  · split
    · next h254 =>
        obtain ⟨t, ht⟩ := startsWithL_shape h254
        rw [ht]
        simp [startsWithL, startsWithL_nil, plus254, code254]
    · split
      · exact startsWithL_append plus254 _
      · next hnp => simpa using hnp

/-- A string that is already stripped and already starts with `+254` is a
fixed point of both normalizations. -/
theorem format_fixedPoint {y : List Char} (hstrip : stripPhone y = y)
    (hpre : startsWithL y plus254 = true) :
    formatPhonePermissive y = y ∧ formatPhone y = some y := by
  obtain ⟨t, rfl⟩ := startsWithL_shape hpre
  constructor
  · unfold formatPhonePermissive
    dsimp only
    rw [hstrip]
    simp [startsWithL, startsWithL_nil, startsWithL_append, plus254, code254]
  · unfold formatPhone
    dsimp only
    rw [hstrip]
    simp [startsWithL, startsWithL_nil, startsWithL_append, plus254, code254]

/-! ### Claim theorems -/

/-- C4: for every input whose stripped form (whitespace, hyphens and
parentheses removed) begins with the trunk digit `0`, both the permissive
chain of `src/sms-server/index.js` and `formatPhone` of
`src/unnamed/part_001` return `+254` followed by exactly the remaining
characters: only the leading `0` is replaced by the country code. -/
theorem C4_trunk_digit_replaced (s : List Char)
    (h : startsWithL (stripPhone s) ['0'] = true) :
    formatPhonePermissive s = plus254 ++ (stripPhone s).tail ∧
      formatPhone s = some (plus254 ++ (stripPhone s).tail) := by
  constructor
  · unfold formatPhonePermissive
    dsimp only
    rw [if_pos h]
  · unfold formatPhone
    dsimp only
    rw [if_pos h]

theorem C4_trunk_digit_replaced_witness :
    startsWithL (stripPhone "0712 345-678".data) ['0'] = true ∧
      formatPhonePermissive "0712 345-678".data =
        plus254 ++ (stripPhone "0712 345-678".data).tail ∧
      formatPhone "0712 345-678".data =
        some (plus254 ++ (stripPhone "0712 345-678".data).tail) :=
  ⟨by decide, C4_trunk_digit_replaced "0712 345-678".data (by decide)⟩

/-- C5: for every input already bearing the country code — starting with
`254` or `+254` after stripping — normalization is idempotent, both for
the permissive chain of `src/sms-server/index.js` and for the
`formatPhone` of `src/unnamed/part_001` (whose output is again accepted
and returned unchanged). -/
theorem C5_normalize_idempotent (s : List Char)
    (h : startsWithL (stripPhone s) code254 = true ∨
         startsWithL (stripPhone s) plus254 = true) :
    formatPhonePermissive (formatPhonePermissive s) = formatPhonePermissive s ∧
      ∀ y, formatPhone s = some y → formatPhone y = some y := by
  constructor
  · exact (format_fixedPoint (stripPhone_formatPhonePermissive s)
      (formatPhonePermissive_startsWith s)).1
  · intro y hy
    have hficy : stripPhone y = y ∧ startsWithL y plus254 = true := by
      unfold formatPhone at hy
      dsimp only at hy
      have hpidem := stripPhone_idem s
      split at hy
      · next h0 =>
          obtain ⟨t, ht⟩ := startsWithL_shape h0
          simp only [List.cons_append, List.nil_append] at ht
          have hstript : stripPhone t = t := by
            rw [ht, stripPhone_cons_keep (by decide) t] at hpidem
            injection hpidem
          obtain rfl : plus254 ++ t = y := by
            rw [ht, List.tail_cons] at hy
            exact Option.some_injective _ hy
          exact ⟨by rw [stripPhone_append, stripPhone_plus254, hstript],
            startsWithL_append plus254 t⟩
      · split at hy
        · next h254 =>
            obtain rfl : '+' :: stripPhone s = y := Option.some_injective _ hy
            refine ⟨by rw [stripPhone_cons_keep (by decide), hpidem], ?_⟩
            obtain ⟨t, ht⟩ := startsWithL_shape h254
            rw [ht]
            simp [startsWithL, startsWithL_nil, plus254, code254]
        · split at hy
          · next hp =>
              obtain rfl : stripPhone s = y := Option.some_injective _ hy
              exact ⟨hpidem, hp⟩
          · exact absurd hy (by simp)
    exact (format_fixedPoint hficy.1 hficy.2).2

theorem C5_normalize_idempotent_witness :
    (startsWithL (stripPhone "254712345678".data) code254 = true ∨
      startsWithL (stripPhone "254712345678".data) plus254 = true) ∧
    (formatPhonePermissive (formatPhonePermissive "254712345678".data) =
        formatPhonePermissive "254712345678".data ∧
      ∀ y, formatPhone "254712345678".data = some y → formatPhone y = some y) :=
  ⟨Or.inl (by decide), C5_normalize_idempotent "254712345678".data (Or.inl (by decide))⟩

/-- C10: the permissive normalization used by the dispatch loop of
`src/sms-server/index.js` is total and never rejects: for every input it
returns a (nonempty, hence truthy) string starting with `+254`, so the
loop's normalization-failure skip branch is unreachable under the
permissive policy. -/
theorem C10_permissive_total (s : List Char) :
    startsWithL (formatPhonePermissive s) plus254 = true ∧
      formatPhonePermissive s ≠ [] := by
  refine ⟨formatPhonePermissive_startsWith s, ?_⟩
  obtain ⟨t, ht⟩ := startsWithL_shape (formatPhonePermissive_startsWith s)
  rw [ht]
  simp [plus254]

/-- C8: a reminder whose `sendAt` lies strictly after `now` is never
selected by the due-query `{ sent: false, sendAt: { $lte: now } }`,
regardless of its other fields (in particular an `appointmentDate` already
in the past). -/
theorem C8_future_not_selected (now : Int) (store : List Reminder)
    (r : Reminder) (h : now < r.sendAt) : r ∉ dueQuery now store := by
  intro hmem
  have hdue := (List.mem_filter.mp hmem).2
  simp only [isDue, Bool.and_eq_true, decide_eq_true_eq] at hdue
  omega

theorem C8_future_not_selected_witness :
    (0 : Int) < (mkAppointmentReminder "Ann".data "0712345678".data
        "Dr".data "Clinic".data (-86400000) "0900".data 60000).sendAt ∧
      mkAppointmentReminder "Ann".data "0712345678".data "Dr".data
          "Clinic".data (-86400000) "0900".data 60000 ∉
        dueQuery 0 [mkAppointmentReminder "Ann".data "0712345678".data
          "Dr".data "Clinic".data (-86400000) "0900".data 60000] :=
  ⟨by decide, C8_future_not_selected 0 _ _ (by decide)⟩

/-- C7: under the strict policy of the `/send-sms` handler of
`src/sms-server/index.js`, a request (with a nonempty message) reaches the
gateway exactly when its formatted phone matches `/^\+254[17]\d{8}$/`; a
non-matching input gets a 400 validation error and causes no gateway
call. -/
theorem C7_strict_validation (gw : List Char → List Char → GatewayResult)
    (toNumber message name : List Char) (hm : message ≠ []) :
    ((sendSmsHandler gw toNumber message name).2 ≠ [] ↔
      phoneRegexTest (formatPhonePermissive toNumber) = true) ∧
    (phoneRegexTest (formatPhonePermissive toNumber) = false →
      ∃ e, sendSmsHandler gw toNumber message name = (.badRequest e, [])) := by
  unfold sendSmsHandler
  by_cases ht : toNumber = []
  · subst ht
    have hreg : phoneRegexTest (formatPhonePermissive []) = false := by decide
    simp [hreg]
  · rw [if_neg (by simp [ht, hm])]
    by_cases hreg : phoneRegexTest (formatPhonePermissive toNumber) = true
    · rw [if_neg (by simp [hreg])]
      dsimp only
      constructor
      · constructor
        · intro _; exact hreg
        · intro _
          split
          · split <;> simp
          · simp
      · intro hcontra
        rw [hreg] at hcontra
        exact absurd hcontra (by simp)
    · rw [if_pos (by simpa using hreg)]
      simp only [Bool.not_eq_true] at hreg
      simp [hreg]

theorem C7_strict_validation_witness :
    "hello".data ≠ ([] : List Char) ∧
    (((sendSmsHandler (fun _ _ => GatewayResult.resolved "Success".data)
          "0712345678".data "hello".data [] ).2 ≠ [] ↔
        phoneRegexTest (formatPhonePermissive "0712345678".data) = true) ∧
      (phoneRegexTest (formatPhonePermissive "0712345678".data) = false →
        ∃ e, sendSmsHandler (fun _ _ => GatewayResult.resolved "Success".data)
            "0712345678".data "hello".data [] = (.badRequest e, []))) :=
  ⟨by decide, C7_strict_validation (fun _ _ => GatewayResult.resolved "Success".data)
    "0712345678".data "hello".data [] (by decide)⟩

/-- C9: `POST /api/reminders` of `src/unnamed/part_001` with a parsable
repeat-day count n ≥ 1 creates exactly n medication records, the i-th
carrying `sendAt + i · 24h` (in milliseconds) and `sent = false`; an
absent or unparsable count creates exactly one record at the requested
`sendAt`. -/
theorem C9_batch_creation (name phone med : List Char) (sendAt : Int)
    (rd : Option (List Char)) (hp : phone ≠ []) :
    (∀ n : Int, rd.bind parseIntJS = some n → 1 ≤ n →
      ∃ l, createReminders name phone med sendAt rd = some l ∧
        l.length = n.toNat ∧
        ∀ (i : Nat) (hi : i < l.length),
          l.get ⟨i, hi⟩ =
            mkMedicationReminder name phone med (sendAt + (i : Int) * 86400000)) ∧
    (rd.bind parseIntJS = none →
      createReminders name phone med sendAt rd =
        some [mkMedicationReminder name phone med sendAt]) := by
  constructor
  · intro n hn h1
    unfold createReminders
    rw [if_neg hp, hn]
    dsimp only
    rw [if_neg (by omega)]
    refine ⟨_, rfl, by simp, ?_⟩
    intro i hi
    simp only [List.get_eq_getElem, List.getElem_map, List.getElem_range]
    norm_num
  · intro hn
    unfold createReminders
    rw [if_neg hp, hn]
    simp [List.range_succ]

theorem C9_batch_creation_witness :
    "0712345678".data ≠ ([] : List Char) ∧
    (some "3".data).bind parseIntJS = some 3 ∧
    ∃ l, createReminders "Jane".data "0712345678".data "Metformin".data 0
        (some "3".data) = some l ∧
      l.length = (3 : Int).toNat ∧
      ∀ (i : Nat) (hi : i < l.length),
        l.get ⟨i, hi⟩ = mkMedicationReminder "Jane".data "0712345678".data
          "Metformin".data (0 + (i : Int) * 86400000) :=
  ⟨by decide, by decide,
    (C9_batch_creation "Jane".data "0712345678".data "Metformin".data 0
      (some "3".data) (by decide)).1 3 (by decide) (by decide)⟩

/-- C1: one tick of the `src/sms-server/index.js` dispatch loop over a
store holding a single unsent medication reminder due one minute ago with
phone `0712345678` and medication `Metformin` invokes the gateway with
destination `+254712345678` and body
`Hi <name>, this is your reminder to take: Metformin.`, and afterwards the
record has `sent = true` (the gateway resolving with any status). -/
theorem C1_medication_scenario (gw : List Char → List Char → GatewayResult)
    (fmtDate : Int → List Char) (now : Int) (r : Reminder) (st : List Char)
    (hty : r.rtype = RType.medication)
    (hph : r.phone = "0712345678".data)
    (hmed : r.medication = "Metformin".data)
    (hsent : r.sent = false)
    (hAt : r.sendAt = now - 60000)
    (hgw : gw "+254712345678".data
      ("Hi ".data ++ r.name ++ ", this is your reminder to take: Metformin.".data) =
        GatewayResult.resolved st) :
    tickIndex gw fmtDate now [r] =
      ([⟨"+254712345678".data,
         "Hi ".data ++ r.name ++ ", this is your reminder to take: Metformin.".data⟩],
       [{ r with sent := true }]) := by
  have hdue : isDue now r = true := by
    simp only [isDue, hsent, Bool.not_false, Bool.true_and, decide_eq_true_eq]
    omega
  have hfp : formatPhonePermissive r.phone = "+254712345678".data := by
    rw [hph]; decide
  have hmsg : composeMsgIndex fmtDate r =
      "Hi ".data ++ r.name ++ ", this is your reminder to take: Metformin.".data := by
    unfold composeMsgIndex
    rw [hty, hmed]
    simp only [List.append_assoc]
    congr 2
  have hpne : r.phone ≠ [] := by rw [hph]; decide
  have hproc : processOneIndex gw fmtDate r =
      ([⟨"+254712345678".data,
         "Hi ".data ++ r.name ++ ", this is your reminder to take: Metformin.".data⟩],
       { r with sent := true }) := by
    unfold processOneIndex
    rw [if_neg hpne]
    dsimp only
    rw [hfp, hmsg, hgw]
  unfold tickIndex
  rw [show dueQuery now [r] = [r] by simp [dueQuery, hdue]]
  simp [loopIndex, hproc, hdue]

theorem C1_medication_scenario_witness :
    tickIndex (fun _ _ => GatewayResult.resolved "Success".data) (fun _ => [])
        60000
        [mkMedicationReminder "Ann".data "0712345678".data "Metformin".data 0] =
      ([⟨"+254712345678".data,
         "Hi ".data ++ "Ann".data ++ ", this is your reminder to take: Metformin.".data⟩],
       [{ mkMedicationReminder "Ann".data "0712345678".data "Metformin".data 0
            with sent := true }]) :=
  C1_medication_scenario (fun _ _ => GatewayResult.resolved "Success".data)
    (fun _ => []) 60000
    (mkMedicationReminder "Ann".data "0712345678".data "Metformin".data 0)
    "Success".data rfl rfl rfl rfl (by decide) rfl

/-- C3 counterexample: a gateway "failure" in the sense of the claim's
sources includes a resolved call reporting a non-success status, and on
that case the `src/sms-server/index.js` tick does NOT leave the due record
unchanged: with the gateway resolving `Failed`, the record is modified
(`sent` becomes true) and the next tick's due-query no longer selects
it. -/
theorem C3_counterexample_nonsuccess_not_retried :
    (tickIndex (fun _ _ => GatewayResult.resolved "Failed".data) (fun _ => [])
        60000
        [mkMedicationReminder "Ann".data "0712345678".data "Metformin".data 0]).2 ≠
      [mkMedicationReminder "Ann".data "0712345678".data "Metformin".data 0] ∧
    dueQuery 120000
        ((tickIndex (fun _ _ => GatewayResult.resolved "Failed".data) (fun _ => [])
          60000
          [mkMedicationReminder "Ann".data "0712345678".data "Metformin".data 0]).2) =
      [] := by decide

/-- C3 (amended): if the gateway call for a due reminder throws (a
rejected promise — as opposed to resolving with a non-success status,
which marks the record sent), the `src/sms-server/index.js` tick leaves
that record unchanged — `sent` stays false — and the very same record is
selected by the due-query at any later tick time. -/
theorem C3_failure_retry (gw : List Char → List Char → GatewayResult)
    (fmtDate : Int → List Char) (now nxt : Int) (store : List Reminder)
    (r : Reminder) (hmem : r ∈ store) (hdue : isDue now r = true)
    (hph : r.phone ≠ [])
    (hgw : gw (formatPhonePermissive r.phone) (composeMsgIndex fmtDate r) =
      GatewayResult.thrown)
    (hle : now ≤ nxt) :
    (processOneIndex gw fmtDate r).2 = r ∧ r.sent = false ∧
      r ∈ (tickIndex gw fmtDate now store).2 ∧
      r ∈ dueQuery nxt (tickIndex gw fmtDate now store).2 := by
  have hproc : (processOneIndex gw fmtDate r).2 = r := by
    unfold processOneIndex
    rw [if_neg hph]
    dsimp only
    rw [hgw]
  have hsent : r.sent = false := by
    simp only [isDue, Bool.and_eq_true, Bool.not_eq_true'] at hdue
    exact hdue.1
  have hmem' : r ∈ (tickIndex gw fmtDate now store).2 := by
    unfold tickIndex
    dsimp only
    have : (fun x => if isDue now x then (processOneIndex gw fmtDate x).2 else x) r
        = r := by simp [hdue, hproc]
    simpa [this] using List.mem_map_of_mem
      (fun x => if isDue now x then (processOneIndex gw fmtDate x).2 else x) hmem
  refine ⟨hproc, hsent, hmem', ?_⟩
  refine List.mem_filter.mpr ⟨hmem', ?_⟩
  simp only [isDue, Bool.and_eq_true, Bool.not_eq_true', decide_eq_true_eq] at hdue ⊢
  exact ⟨hdue.1, le_trans hdue.2 hle⟩

theorem C3_failure_retry_witness :
    (mkMedicationReminder "Ann".data "0712345678".data "Metformin".data 0) ∈
        ([mkMedicationReminder "Ann".data "0712345678".data "Metformin".data 0]) ∧
    (processOneIndex (fun _ _ => GatewayResult.thrown) (fun _ => [])
        (mkMedicationReminder "Ann".data "0712345678".data "Metformin".data 0)).2 =
      mkMedicationReminder "Ann".data "0712345678".data "Metformin".data 0 ∧
    (mkMedicationReminder "Ann".data "0712345678".data "Metformin".data 0) ∈
      dueQuery 120000 ((tickIndex (fun _ _ => GatewayResult.thrown) (fun _ => [])
        60000
        [mkMedicationReminder "Ann".data "0712345678".data "Metformin".data 0]).2) := by
  have h := C3_failure_retry (fun _ _ => GatewayResult.thrown) (fun _ => [])
    60000 120000
    [mkMedicationReminder "Ann".data "0712345678".data "Metformin".data 0]
    (mkMedicationReminder "Ann".data "0712345678".data "Metformin".data 0)
    (by decide) (by decide) (by decide) rfl (by decide)
  exact ⟨by decide, h.1, h.2.2.2⟩

end CareSync

namespace CareSync

/-- A record with an empty phone, or one whose `formatPhone` is rejected,
is skipped: no gateway call and no state change. -/
theorem processOneCron_skip (gw : List Char → List Char → GatewayResult)
    (fmtDate : Int → List Char) (r : Reminder)
    (h : r.phone = [] ∨ formatPhone r.phone = none) :
    processOneCron gw fmtDate r = ([], r) := by
  unfold processOneCron
  rcases h with h | h
  · rw [if_pos h]
  · by_cases hp : r.phone = []
    · rw [if_pos hp]
    · rw [if_neg hp, h]

/-- A record that passes both checks always produces exactly its gateway
call, whatever the gateway outcome. -/
theorem processOneCron_call (gw : List Char → List Char → GatewayResult)
    (fmtDate : Int → List Char) (r : Reminder) (fp : List Char)
    (hp : r.phone ≠ []) (hfp : formatPhone r.phone = some fp) :
    (processOneCron gw fmtDate r).1 = [⟨fp, composeMsgCron fmtDate r⟩] := by
  unfold processOneCron
  rw [if_neg hp, hfp]
  dsimp only
  cases gw fp (composeMsgCron fmtDate r) <;> rfl

/-- Each record of the batch contributes its own calls to the loop's
output, independently of every other record's outcome. -/
theorem loopCron_calls_mem (gw : List Char → List Char → GatewayResult)
    (fmtDate : Int → List Char) (l : List Reminder) (r : Reminder)
    (hr : r ∈ l) (c : SendCall) (hc : c ∈ (processOneCron gw fmtDate r).1) :
    c ∈ (loopCron gw fmtDate l).1 := by
  induction l with
  | nil => cases hr
  | cons a as ih =>
      unfold loopCron
      dsimp only
      rcases List.mem_cons.mp hr with rfl | hr'
      · exact List.mem_append_left _ hc
      · exact List.mem_append_right _ (ih hr')

theorem formatPhone_nil : formatPhone [] = none := by decide

end CareSync

namespace CareSync

/-- C6: during a `src/unnamed/part_001` dispatch tick, every record whose
phone is empty or whose normalization is rejected is skipped (no gateway
call) and left unchanged, while processing continues: the store keeps its
size and every due record that passes the checks still gets its gateway
call — no single record's skip or failure aborts the batch. -/
theorem C6_skip_and_continue (gw : List Char → List Char → GatewayResult)
    (fmtDate : Int → List Char) (now : Int) (store : List Reminder) :
    (tickCron gw fmtDate now store).2.length = store.length ∧
    (∀ r ∈ store, (r.phone = [] ∨ formatPhone r.phone = none) →
      processOneCron gw fmtDate r = ([], r) ∧
        r ∈ (tickCron gw fmtDate now store).2) ∧
    (∀ r ∈ dueQuery now store, ∀ fp, formatPhone r.phone = some fp →
      SendCall.mk fp (composeMsgCron fmtDate r) ∈
        (tickCron gw fmtDate now store).1) := by
  refine ⟨by simp [tickCron], ?_, ?_⟩
  · intro r hmem hskip
    have hproc := processOneCron_skip gw fmtDate r hskip
    refine ⟨hproc, ?_⟩
    unfold tickCron
    dsimp only
    have hfix : (fun x => if isDue now x then (processOneCron gw fmtDate x).2
        else x) r = r := by
      by_cases hd : isDue now r = true <;> simp [hd, hproc]
    simpa [hfix] using List.mem_map_of_mem
      (fun x => if isDue now x then (processOneCron gw fmtDate x).2 else x) hmem
  · intro r hdue fp hfp
    have hp : r.phone ≠ [] := by
      intro hnil
      rw [hnil, formatPhone_nil] at hfp
      cases hfp
    have hcall := processOneCron_call gw fmtDate r fp hp hfp
    unfold tickCron
    dsimp only
    exact loopCron_calls_mem gw fmtDate _ r hdue _ (by rw [hcall]; exact List.mem_singleton_self _)

theorem C6_skip_and_continue_witness :
    (tickCron (fun _ _ => GatewayResult.resolved "Success".data) (fun _ => [])
        60000
        [mkMedicationReminder "Bea".data [] "Aspirin".data 0,
         mkMedicationReminder "Cal".data "9999".data "Aspirin".data 0,
         mkMedicationReminder "Ann".data "0712345678".data "Metformin".data 0]).2.length =
      ([mkMedicationReminder "Bea".data [] "Aspirin".data 0,
        mkMedicationReminder "Cal".data "9999".data "Aspirin".data 0,
        mkMedicationReminder "Ann".data "0712345678".data "Metformin".data 0] :
          List Reminder).length ∧
    mkMedicationReminder "Cal".data "9999".data "Aspirin".data 0 ∈
      (tickCron (fun _ _ => GatewayResult.resolved "Success".data) (fun _ => [])
        60000
        [mkMedicationReminder "Bea".data [] "Aspirin".data 0,
         mkMedicationReminder "Cal".data "9999".data "Aspirin".data 0,
         mkMedicationReminder "Ann".data "0712345678".data "Metformin".data 0]).2 ∧
    SendCall.mk "+254712345678".data
        (composeMsgCron (fun _ => [])
          (mkMedicationReminder "Ann".data "0712345678".data "Metformin".data 0)) ∈
      (tickCron (fun _ _ => GatewayResult.resolved "Success".data) (fun _ => [])
        60000
        [mkMedicationReminder "Bea".data [] "Aspirin".data 0,
         mkMedicationReminder "Cal".data "9999".data "Aspirin".data 0,
         mkMedicationReminder "Ann".data "0712345678".data "Metformin".data 0]).1 := by
  have h := C6_skip_and_continue
    (fun _ _ => GatewayResult.resolved "Success".data) (fun _ => []) 60000
    [mkMedicationReminder "Bea".data [] "Aspirin".data 0,
     mkMedicationReminder "Cal".data "9999".data "Aspirin".data 0,
     mkMedicationReminder "Ann".data "0712345678".data "Metformin".data 0]
  exact ⟨h.1,
    (h.2.1 (mkMedicationReminder "Cal".data "9999".data "Aspirin".data 0)
      (by decide) (Or.inr (by decide))).2,
    h.2.2 (mkMedicationReminder "Ann".data "0712345678".data "Metformin".data 0)
      (by decide) "+254712345678".data (by decide)⟩

/-- C2 counterexample: the dispatch loop of `src/sms-server/index.js` does
not inspect the resolved result's status — a gateway call that resolves
with the non-success status `Failed` still leaves the record with
`sent = true` after the tick, contradicting the claim that such a call
leaves the record pending. -/
theorem C2_counterexample_nonsuccess_marks_sent :
    ((tickIndex (fun _ _ => GatewayResult.resolved "Failed".data) (fun _ => [])
        60000
        [mkMedicationReminder "Ann".data "0712345678".data "Metformin".data 0]).2.map
      Reminder.sent) = [true] := by decide

/-- C2 (amended): `sent` is false at creation (single and batch creation);
in the dispatch loops of `src/sms-server/index.js` and
`src/unnamed/part_001` it is set true exactly when the gateway call
resolves — regardless of the reported status — while a thrown call leaves
it false; a record with `sent = true` is never selected again and is left
untouched by later ticks of either loop; only the `src/unnamed/part_000`
library job conditions the flag on the result's success field. -/
theorem C2_amended_sent_semantics :
    (∀ name phone med sendAt,
        (mkMedicationReminder name phone med sendAt).sent = false) ∧
    (∀ name phone dn cn ad tme sendAt,
        (mkAppointmentReminder name phone dn cn ad tme sendAt).sent = false) ∧
    (∀ name phone med sendAt rd l,
        createReminders name phone med sendAt rd = some l →
        ∀ r ∈ l, r.sent = false) ∧
    (∀ gw fmtDate r, r.sent = false →
        (((processOneIndex gw fmtDate r).2).sent = true ↔
          (r.phone ≠ [] ∧ ∃ st,
            gw (formatPhonePermissive r.phone) (composeMsgIndex fmtDate r) =
              GatewayResult.resolved st))) ∧
    (∀ gw fmtDate r, r.sent = false →
        (((processOneCron gw fmtDate r).2).sent = true ↔
          (r.phone ≠ [] ∧ ∃ fp, formatPhone r.phone = some fp ∧ ∃ st,
            gw fp (composeMsgCron fmtDate r) = GatewayResult.resolved st))) ∧
    (∀ now (r : Reminder), r.sent = true → isDue now r = false) ∧
    (∀ gw fmtDate now store (r : Reminder), r ∈ store → r.sent = true →
        r ∈ (tickIndex gw fmtDate now store).2) ∧
    (∀ gw fmtDate now store (r : Reminder), r ∈ store → r.sent = true →
        r ∈ (tickCron gw fmtDate now store).2) ∧
    (∀ gw (r : Reminder), r.sent = false →
        ((processOneLib gw r).sent = true ↔ gw r.phone (msgLib r) = true)) := by
  refine ⟨fun _ _ _ _ => rfl, fun _ _ _ _ _ _ _ => rfl, ?_, ?_, ?_, ?_, ?_, ?_, ?_⟩
  · intro name phone med sendAt rd l hl r hr
    unfold createReminders at hl
    by_cases hp : phone = []
    · rw [if_pos hp] at hl; cases hl
    · rw [if_neg hp] at hl
      obtain rfl := Option.some_injective _ hl
      obtain ⟨i, _, rfl⟩ := List.mem_map.mp hr
      rfl
  · intro gw fmtDate r hsent
    unfold processOneIndex
    by_cases hp : r.phone = []
    · simp [hp, hsent]
    · rw [if_neg hp]
      dsimp only
      cases hgw : gw (formatPhonePermissive r.phone) (composeMsgIndex fmtDate r) with
      | thrown => simp [hsent, hp, hgw]
      | resolved st => simp [hsent, hp, hgw]
  · intro gw fmtDate r hsent
    unfold processOneCron
    by_cases hp : r.phone = []
    · simp [hp, hsent]
    · rw [if_neg hp]
      cases hf : formatPhone r.phone with
      | none => simp [hsent, hp, hf]
      | some fp =>
          dsimp only
          cases hgw : gw fp (composeMsgCron fmtDate r) with
          | thrown => simp [hsent, hp, hf, hgw]
          | resolved st => simp [hsent, hp, hf, hgw]
  · intro now r h
    simp [isDue, h]
  · intro gw fmtDate now store r hmem hsent
    unfold tickIndex
    dsimp only
    have hfix : (fun x => if isDue now x then (processOneIndex gw fmtDate x).2
        else x) r = r := by simp [isDue, hsent]
    simpa [hfix] using List.mem_map_of_mem
      (fun x => if isDue now x then (processOneIndex gw fmtDate x).2 else x) hmem
  · intro gw fmtDate now store r hmem hsent
    unfold tickCron
    dsimp only
    have hfix : (fun x => if isDue now x then (processOneCron gw fmtDate x).2
        else x) r = r := by simp [isDue, hsent]
    simpa [hfix] using List.mem_map_of_mem
      (fun x => if isDue now x then (processOneCron gw fmtDate x).2 else x) hmem
  · intro gw r hsent
    unfold processOneLib
    by_cases g : gw r.phone (msgLib r) = true
    · simp [g]
    · simp only [Bool.not_eq_true] at g
      simp [g, hsent]

theorem C2_amended_sent_semantics_witness :
    (mkMedicationReminder "Ann".data "0712345678".data "Metformin".data 0).sent =
        false ∧
    ((processOneLib (fun _ _ => false)
        (mkMedicationReminder "Ann".data "0712345678".data "Metformin".data 0)).sent =
          true ↔
      (fun _ _ => false) (mkMedicationReminder "Ann".data "0712345678".data
          "Metformin".data 0).phone
        (msgLib (mkMedicationReminder "Ann".data "0712345678".data
          "Metformin".data 0)) = true) :=
  ⟨C2_amended_sent_semantics.1 "Ann".data "0712345678".data "Metformin".data 0,
    C2_amended_sent_semantics.2.2.2.2.2.2.2.2 (fun _ _ => false)
      (mkMedicationReminder "Ann".data "0712345678".data "Metformin".data 0) rfl⟩

end CareSync
